import Mathlib

/-!
Shallow embedding of `src/socket.js` from companion-module-stagetimerio-api:
the Socket.io connection lifecycle manager, bootstrap synchronizer and push
event dispatcher. JavaScript objects are embedded as association lists of
string keys to `JsValue`s, asynchronous handlers as pure functions from an
environment of API responses to the list of observable effects they perform
(logs, status updates, API sends, state-store updates), and the module-level
`socket` variable as explicit state threaded through `socketStart`/`socketStop`.
-/

namespace Stagetimer

/-- JavaScript-like values carried in event payloads and API responses. -/
inductive JsValue where
  | null
  | bool (b : Bool)
  | str (s : String)
  | num (n : Int)
deriving DecidableEq, Repr

/-- JavaScript truthiness: `null`/`undefined`, `false`, `""` and `0` are falsy. -/
def JsValue.truthy : JsValue → Bool
  | .null => false
  | .bool b => b
  | .str s => !s.isEmpty
  | .num n => n != 0

/-- A JavaScript object as an association list of fields. -/
abbrev Obj := List (String × JsValue)

/-- Property access `obj.k`; an absent key reads as `undefined`, embedded here
as `JsValue.null` (both are falsy and both destructure the same way). -/
def getField (obj : Obj) (k : String) : JsValue :=
  (obj.lookup k).getD .null

/-- Status values (`InstanceStatus` from companion-module-base) used by
`socket.js`. -/
inductive ConnectionStatus where
  | Connecting
  | Ok
  | Disconnected
  | ConnectionFailure
  | UnknownError
deriving DecidableEq, Repr

/-- Modelled from the spec: the request kinds `actionIdType.get_room`,
`actionIdType.get_status`, `actionIdType.get_timer` referenced by
`socket.js`; their defining file `src/actions.js` is not included, and spec
section 6 lists exactly these three request kinds. -/
inductive ApiRequestKind where
  | get_room
  | get_status
  | get_timer
deriving DecidableEq, Repr

/-- Environment of API responses: for each request kind and params object,
either the resolved `data` object or the rejection's error message.
`instance.apiClient.send` is the external API-client collaborator. -/
abbrev ApiEnv := ApiRequestKind → Obj → Except String Obj

/-- The observable side effects of `socket.js`: log lines, status updates,
API requests, state-store updates and the final `socket.connect()` call. -/
inductive Effect where
  | log (level : String) (message : String)
  | updateStatus (st : ConnectionStatus)
  | apiSend (kind : ApiRequestKind) (params : Obj)
  | updateRoomState (fields : Obj)
  | updatePlaybackState (fields : Obj)
  | updateTimerState (fields : Obj)
  | updateMessageState (fields : Obj)
  | updateFlashingState (count : JsValue)
  | socketConnect
deriving DecidableEq, Repr

/-- Function `getTimerAndUpdateState(instance, timer_id)` (socket.js lines 221-239):
send `get_timer` with params `{ timer_id }`; on resolution apply a timer
state update with the six destructured fields; on rejection log the error.
The `.catch` means no exception escapes: the effect list is total. -/
def getTimerAndUpdateState (env : ApiEnv) (timer_id : JsValue) : List Effect :=
  .apiSend .get_timer [("timer_id", timer_id)] ::
  match env .get_timer [("timer_id", timer_id)] with
  | .ok data =>
      [.updateTimerState
        [ ("name", getField data "name")
        , ("speaker", getField data "speaker")
        , ("notes", getField data "notes")
        , ("duration", getField data "duration")
        , ("wrap_up_yellow", getField data "wrap_up_yellow")
        , ("wrap_up_red", getField data "wrap_up_red") ]]
  | .error e => [.log "error" e]

/-- The `get_room` fetch chain inside the `connect` handler
(socket.js lines 80-94). -/
def fetchRoom (env : ApiEnv) : List Effect :=
  .apiSend .get_room [] ::
  match env .get_room [] with
  | .ok data =>
      [.updateRoomState
        [ ("roomId", getField data "_id")
        , ("roomName", getField data "name")
        , ("roomBlackout", getField data "blackout")
        , ("roomFocus", getField data "focus_message") ]]
  | .error e => [.log "error" e]

/-- The `get_status` fetch chain inside the `connect` handler
(socket.js lines 96-117): apply the playback update, then chain into
`getTimerAndUpdateState` unless `timer_id` is falsy (`if (!timer_id)`). -/
def fetchStatus (env : ApiEnv) : List Effect :=
  .apiSend .get_status [] ::
  match env .get_status [] with
  | .ok data =>
      .updatePlaybackState
        [ ("currentTimerId", getField data "timer_id")
        , ("isRunning", getField data "running")
        , ("kickoff", getField data "start")
        , ("deadline", getField data "finish")
        , ("lastStop", getField data "pause") ] ::
      (if (getField data "timer_id").truthy then
        getTimerAndUpdateState env (getField data "timer_id")
      else [])
  | .error e => [.log "error" e]

/-- The `connect` handler (socket.js lines 76-118): log, status `Ok`, then
the two independent bootstrap fetches. -/
def onConnect (env : ApiEnv) : List Effect :=
  .log "info" "Connected!" ::
  .updateStatus .Ok ::
  (fetchRoom env ++ fetchStatus env)

/-- The partial room update built by the `room` event handler
(socket.js lines 184-187): only `roomBlackout` and `roomFocus`. -/
def roomEventUpdate (payload : Obj) : Obj :=
  [ ("roomBlackout", getField payload "blackout")
  , ("roomFocus", getField payload "focus_message") ]

/-- The `playback_status` event handler (socket.js lines 163-177). -/
def onPlaybackStatus (env : ApiEnv) (payload : Obj) : List Effect :=
  .log "debug" "Event: playback_status" ::
  .updatePlaybackState
    [ ("currentTimerId", getField payload "timer_id")
    , ("isRunning", getField payload "running")
    , ("kickoff", getField payload "start")
    , ("deadline", getField payload "finish")
    , ("lastStop", getField payload "pause") ] ::
  getTimerAndUpdateState env (getField payload "timer_id")

/-- The `room` event handler (socket.js lines 179-188). -/
def onRoom (payload : Obj) : List Effect :=
  [ .log "debug" "Event: room"
  , .updateRoomState (roomEventUpdate payload) ]

/-- The `message` event handler (socket.js lines 190-202). -/
def onMessage (payload : Obj) : List Effect :=
  [ .log "debug" "Event: message"
  , .updateMessageState
      [ ("showing", getField payload "showing")
      , ("text", getField payload "text")
      , ("color", getField payload "color")
      , ("bold", getField payload "bold")
      , ("uppercase", getField payload "uppercase") ] ]

/-- The `flash` event handler (socket.js lines 204-210). -/
def onFlash (payload : Obj) : List Effect :=
  [ .log "debug" "Event: flash"
  , .updateFlashingState (getField payload "count") ]

/-- Transport-level signals a live socket can present: the socket events and
socket.io manager events `socketStart` subscribes to, plus the four
application push events. -/
inductive TransportSignal where
  | connect
  | connect_error (message : String)
  | disconnect (reason : String)
  | channel_error (message : String)
  | reconnect_attempt (attempt : Nat)
  | reconnect (attempt : Nat)
  | reconnect_failed
  | manager_error (message : String)
  | playback_status (payload : Obj)
  | room (payload : Obj)
  | message (payload : Obj)
  | flash (payload : Obj)
deriving DecidableEq, Repr

/-- Dispatch of one transport signal to the handler `socketStart` registered
for it (socket.js lines 76-210). -/
def handleSignal (env : ApiEnv) : TransportSignal → List Effect
  | .connect => onConnect env
  | .connect_error msg =>
      [ .log "warn" ("Failed to connect! (" ++ msg ++ ")")
      , .updateStatus .ConnectionFailure ]
  | .disconnect reason =>
      if reason = "io client disconnect" then []
      else
        [ .log "warn" ("Disconnected! Reason: " ++ reason)
        , .updateStatus .Disconnected ]
  | .channel_error msg =>
      [ .log "error" ("Unexpected error: " ++ msg)
      , .updateStatus .UnknownError ]
  | .reconnect_attempt n =>
      [ .log "warn" ("Reconnecting... (Attempt #" ++ toString n ++ ")")
      , .updateStatus .Connecting ]
  | .reconnect n =>
      [ .log "info" ("Reconnected on attempt #" ++ toString n ++ "!")
      , .updateStatus .Ok ]
  | .reconnect_failed =>
      [ .log "error" "Unable to connect to Stagetimer.io!"
      , .updateStatus .ConnectionFailure ]
  | .manager_error msg =>
      [ .log "debug" ("[Socket manager] Unexpected error: " ++ msg) ]
  | .playback_status payload => onPlaybackStatus env payload
  | .room payload => onRoom payload
  | .message payload => onMessage payload
  | .flash payload => onFlash payload

/-- Effects performed synchronously by `socketStart` itself (socket.js lines
56-57 and 213): the initial log, the `Connecting` status, and the final
`socket.connect()` call. Handler registration performs no effect. -/
def socketStartEffects : List Effect :=
  [ .log "info" "Connecting to Stagetimer.io..."
  , .updateStatus .Connecting
  , .socketConnect ]

/-- A full run: `socketStart` followed by a sequence of transport signals
delivered to the registered handlers. -/
def socketRun (env : ApiEnv) (signals : List TransportSignal) : List Effect :=
  socketStartEffects ++ (signals.map (handleSignal env)).flatten

/-- The connection configuration destructured from `instance.config`
(socket.js line 51); `apiUrl` kept as parsed by `new URL(apiUrl)` into origin
and pathname (URL parsing itself is the platform's, not this module's). -/
structure ConnectionConfig where
  apiUrlOrigin : String
  apiUrlPathname : String
  roomId : String
  apiKey : String
deriving DecidableEq, Repr

/-- The part of a companion ModuleInstance `socketStart` destructures:
`instance.config`, absent when the instance is not configured. -/
structure ModuleInstance where
  config : Option ConnectionConfig
deriving DecidableEq, Repr

/-- The options object passed to `io(url.origin, {...})`
(socket.js lines 60-70). -/
structure IoOptions where
  path : String
  auth_room_id : String
  auth_api_key : String
  reconnectionAttempts : Nat
  reconnectionDelayMax : Nat
deriving DecidableEq, Repr

/-- The options literal of socket.js lines 60-70. -/
def ioOptions (config : ConnectionConfig) : IoOptions :=
  { path := config.apiUrlPathname ++ "socket.io"
  , auth_room_id := config.roomId
  , auth_api_key := config.apiKey
  , reconnectionAttempts := 5
  , reconnectionDelayMax := 10000 }

/-- State of the module-level `socket` variable, instrumented for reasoning:
`created` counts the Transport Handles constructed so far (their ids are
`0, ..., created - 1`), `current` is the handle the `socket` variable points
at, and `disconnectedIds` are the handles on which `.disconnect()` was
called. -/
structure ConnState where
  created : Nat
  current : Option Nat
  disconnectedIds : List Nat
deriving DecidableEq, Repr

/-- Module load state: `let socket = null`. -/
def initConnState : ConnState :=
  { created := 0, current := none, disconnectedIds := [] }

/-- Function `socketStop()` (socket.js lines 33-37):
`if (socket) socket.disconnect()`. It does not clear the `socket` variable. -/
def socketStop (s : ConnState) : ConnState :=
  match s.current with
  | some h => { s with disconnectedIds := h :: s.disconnectedIds }
  | none => s

/-- The lifecycle part of `socketStart(instance)` (socket.js lines 45-70):
throw synchronously when `!instance || !instance.config`, otherwise call
`socketStop()` and then assign a freshly constructed handle to `socket`. -/
def socketStart (inst : Option ModuleInstance) (s : ConnState) :
    Except String ConnState :=
  match inst with
  | none => .error "Module instance required"
  | some i =>
    match i.config with
    | none => .error "Module instance required"
    | some _ =>
      let s1 := socketStop s
      .ok { created := s1.created + 1
          , current := some s1.created
          , disconnectedIds := s1.disconnectedIds }

/-- Calls a host can make into this module's lifecycle API. -/
inductive LifecycleCall where
  | start
  | stop
deriving DecidableEq, Repr

/-- A configured instance, as used for lifecycle runs. -/
def validInstance : ModuleInstance :=
  { config := some ({ apiUrlOrigin := "https://api.stagetimer.io"
                    , apiUrlPathname := "/v1/"
                    , roomId := "R1"
                    , apiKey := "K1" }) }

/-- Run a sequence of `socketStart`/`socketStop` calls (with a configured
instance) against the module state. -/
def runCalls (calls : List LifecycleCall) (s : ConnState) : ConnState :=
  match calls with
  | [] => s
  | .stop :: rest => runCalls rest (socketStop s)
  | .start :: rest =>
    match socketStart (some validInstance) s with
    | .ok s1 => runCalls rest s1
    | .error _ => runCalls rest s

/-- The Transport Handles that are live: constructed and never disconnected. -/
def liveIds (s : ConnState) : List Nat :=
  (List.range s.created).filter (fun i => !(decide (i ∈ s.disconnectedIds)))

/-- The status updates among a list of effects, in order. -/
def statusesOf : List Effect → List ConnectionStatus
  | [] => []
  | .updateStatus st :: rest => st :: statusesOf rest
  | _ :: rest => statusesOf rest

/-- The params of the `get_timer` requests among a list of effects. -/
def getTimerSends : List Effect → List Obj
  | [] => []
  | .apiSend .get_timer p :: rest => p :: getTimerSends rest
  | _ :: rest => getTimerSends rest

/-- The params of the `get_room` requests among a list of effects. -/
def getRoomSends : List Effect → List Obj
  | [] => []
  | .apiSend .get_room p :: rest => p :: getRoomSends rest
  | _ :: rest => getRoomSends rest

/-- The room-state updates among a list of effects. -/
def roomUpdatesOf : List Effect → List Obj
  | [] => []
  | .updateRoomState u :: rest => u :: roomUpdatesOf rest
  | _ :: rest => roomUpdatesOf rest

/-- The playback-state updates among a list of effects. -/
def playbackUpdatesOf : List Effect → List Obj
  | [] => []
  | .updatePlaybackState u :: rest => u :: playbackUpdatesOf rest
  | _ :: rest => playbackUpdatesOf rest

/-- The timer-state updates among a list of effects. -/
def timerUpdatesOf : List Effect → List Obj
  | [] => []
  | .updateTimerState u :: rest => u :: timerUpdatesOf rest
  | _ :: rest => timerUpdatesOf rest

/-- Whether a signal is a transport `connect`. -/
def isConnect : TransportSignal → Bool
  | .connect => true
  | _ => false

/-- Modelled from the spec: the section 4.1 transition table, transcribed
signal by signal from its words, used only to compare against the behaviour
of the handlers embedded from the source. `none` means no status emission. -/
def specStatusDelta : TransportSignal → Option ConnectionStatus
  | .connect => some .Ok
  | .connect_error _ => some .ConnectionFailure
  | .disconnect reason =>
      if reason = "io client disconnect" then none else some .Disconnected
  | .channel_error _ => some .UnknownError
  | .reconnect_attempt _ => some .Connecting
  | .reconnect _ => some .Ok
  | .reconnect_failed => some .ConnectionFailure
  | .manager_error _ => none
  | .playback_status _ => none
  | .room _ => none
  | .message _ => none
  | .flash _ => none

/-- Modelled from the spec: the status sequence section 4.1 prescribes for a
started connection followed by a signal sequence — `Connecting` at start,
then the table's emission per signal. -/
def specEmittedStatuses (signals : List TransportSignal) : List ConnectionStatus :=
  ConnectionStatus.Connecting :: signals.filterMap specStatusDelta

/-- Modelled from the spec: the State Store merge (its `updateRoomState` etc.
live in `src/state.js`, which is not included; spec section 6 says each call
merges a partial field set and fields omitted from a call are left
untouched). Reading key `k` after merging `update` into `store`. -/
def mergeLookup (store update : Obj) (k : String) : JsValue :=
  match update.lookup k with
  | some v => v
  | none => getField store k

/-- Sample `get_room` response data. -/
def roomDataSample : Obj :=
  [ ("_id", .str "R1"), ("name", .str "Main"), ("blackout", .bool false)
  , ("focus_message", .null) ]

/-- Sample `get_status` response data with a null `timer_id`. -/
def statusDataNull : Obj :=
  [ ("timer_id", JsValue.null), ("running", .bool false), ("start", .null)
  , ("finish", .null), ("pause", .null) ]

/-- Sample `get_status` response data with `timer_id` "T1". -/
def statusDataT1 : Obj :=
  [ ("timer_id", .str "T1"), ("running", .bool true), ("start", .num 10)
  , ("finish", .num 20), ("pause", .null) ]

/-- Sample `get_timer` response data. -/
def timerDataSample : Obj :=
  [ ("name", .str "Keynote"), ("speaker", .str "Ada"), ("notes", .str "n")
  , ("duration", .num 600), ("wrap_up_yellow", .num 120)
  , ("wrap_up_red", .num 60) ]

/-- Environment whose `get_status` resolves with a null `timer_id`. -/
def envStatusNull : ApiEnv := fun k _ =>
  match k with
  | .get_room => .ok roomDataSample
  | .get_status => .ok statusDataNull
  | .get_timer => .error "Error: timer not found"

/-- Environment whose `get_status` resolves with `timer_id` "T1" and whose
`get_timer` resolves. -/
def envStatusT1 : ApiEnv := fun k _ =>
  match k with
  | .get_room => .ok roomDataSample
  | .get_status => .ok statusDataT1
  | .get_timer => .ok timerDataSample

/-- Environment whose `get_room` rejects while `get_status` resolves. -/
def envRoomReject : ApiEnv := fun k _ =>
  match k with
  | .get_room => .error "Error: room fetch failed"
  | .get_status => .ok statusDataNull
  | .get_timer => .error "Error: timer not found"

/-- Environment whose `get_timer` rejects. -/
def envTimerReject : ApiEnv := fun k _ =>
  match k with
  | .get_room => .error "Error: room fetch failed"
  | .get_status => .error "Error: status fetch failed"
  | .get_timer => .error "Error: timer fetch failed"

/-- A `playback_status` push payload carrying `timer_id` "T2". -/
def payloadT2 : Obj :=
  [ ("timer_id", .str "T2"), ("running", .bool true), ("start", .num 1)
  , ("finish", .num 2), ("pause", .null) ]

/-- A `playback_status` push payload carrying a null `timer_id`. -/
def payloadNullTimer : Obj :=
  [ ("timer_id", JsValue.null), ("running", .bool false), ("start", .null)
  , ("finish", .null), ("pause", .num 3) ]

/-- A `room` push payload. -/
def roomPayloadSample : Obj :=
  [ ("blackout", .bool true), ("focus_message", .str "x") ]

theorem statusesOf_append (a b : List Effect) :
    statusesOf (a ++ b) = statusesOf a ++ statusesOf b := by
  induction a with
  | nil => rfl
  | cons e rest ih => cases e <;> simp [statusesOf, ih]

theorem getTimerSends_append (a b : List Effect) :
    getTimerSends (a ++ b) = getTimerSends a ++ getTimerSends b := by
  induction a with
  | nil => rfl
  | cons e rest ih =>
      cases e with
      | apiSend k p => cases k <;> simp [getTimerSends, ih]
      | _ => simp [getTimerSends, ih]

theorem getRoomSends_append (a b : List Effect) :
    getRoomSends (a ++ b) = getRoomSends a ++ getRoomSends b := by
  induction a with
  | nil => rfl
  | cons e rest ih =>
      cases e with
      | apiSend k p => cases k <;> simp [getRoomSends, ih]
      | _ => simp [getRoomSends, ih]

theorem roomUpdatesOf_append (a b : List Effect) :
    roomUpdatesOf (a ++ b) = roomUpdatesOf a ++ roomUpdatesOf b := by
  induction a with
  | nil => rfl
  | cons e rest ih => cases e <;> simp [roomUpdatesOf, ih]

theorem playbackUpdatesOf_append (a b : List Effect) :
    playbackUpdatesOf (a ++ b) = playbackUpdatesOf a ++ playbackUpdatesOf b := by
  induction a with
  | nil => rfl
  | cons e rest ih => cases e <;> simp [playbackUpdatesOf, ih]

theorem timerUpdatesOf_append (a b : List Effect) :
    timerUpdatesOf (a ++ b) = timerUpdatesOf a ++ timerUpdatesOf b := by
  induction a with
  | nil => rfl
  | cons e rest ih => cases e <;> simp [timerUpdatesOf, ih]

theorem statusesOf_getTimerAndUpdateState (env : ApiEnv) (tid : JsValue) :
    statusesOf (getTimerAndUpdateState env tid) = [] := by
  cases h : env .get_timer [("timer_id", tid)] <;>
    simp [getTimerAndUpdateState, h, statusesOf]

theorem statusesOf_fetchRoom (env : ApiEnv) :
    statusesOf (fetchRoom env) = [] := by
  cases h : env .get_room [] <;> simp [fetchRoom, h, statusesOf]

theorem statusesOf_fetchStatus (env : ApiEnv) :
    statusesOf (fetchStatus env) = [] := by
  cases h : env .get_status [] with
  | error e => simp [fetchStatus, h, statusesOf]
  | ok data =>
      by_cases ht : (getField data "timer_id").truthy
      · cases hg : env .get_timer [("timer_id", getField data "timer_id")] <;>
          simp [fetchStatus, h, statusesOf, ht, getTimerAndUpdateState, hg]
      · simp [fetchStatus, h, statusesOf, ht]

theorem statusesOf_cons_log (lv m : String) (rest : List Effect) :
    statusesOf (.log lv m :: rest) = statusesOf rest := rfl

theorem statusesOf_cons_status (st : ConnectionStatus) (rest : List Effect) :
    statusesOf (.updateStatus st :: rest) = st :: statusesOf rest := rfl

theorem statusesOf_onConnect (env : ApiEnv) :
    statusesOf (onConnect env) = [ConnectionStatus.Ok] := by
  rw [onConnect, statusesOf_cons_log, statusesOf_cons_status, statusesOf_append,
    statusesOf_fetchRoom, statusesOf_fetchStatus]
  rfl

theorem statusesOf_handleSignal (env : ApiEnv) (sig : TransportSignal) :
    statusesOf (handleSignal env sig) = (specStatusDelta sig).toList := by
  cases sig with
  | connect => simp [handleSignal, specStatusDelta, statusesOf_onConnect]
  | disconnect reason =>
      by_cases h : reason = "io client disconnect" <;>
        simp [handleSignal, specStatusDelta, statusesOf, h]
  | playback_status payload =>
      cases hg : env .get_timer [("timer_id", getField payload "timer_id")] <;>
        simp [handleSignal, specStatusDelta, onPlaybackStatus, statusesOf,
          getTimerAndUpdateState, hg]
  | room payload => simp [handleSignal, specStatusDelta, onRoom, statusesOf]
  | message payload => simp [handleSignal, specStatusDelta, onMessage, statusesOf]
  | flash payload => simp [handleSignal, specStatusDelta, onFlash, statusesOf]
  | _ => simp [handleSignal, specStatusDelta, statusesOf]

theorem statusesOf_flatten (env : ApiEnv) (signals : List TransportSignal) :
    statusesOf ((signals.map (handleSignal env)).flatten)
      = signals.filterMap specStatusDelta := by
  induction signals with
  | nil => rfl
  | cons s rest ih =>
      rw [List.map_cons, List.flatten_cons, statusesOf_append,
        statusesOf_handleSignal, List.filterMap_cons, ih]
      cases h : specStatusDelta s <;> simp [h]

/-- The invariant of the module socket state: every handle constructed so far
has either been disconnected or is the one the `socket` variable points at. -/
def handleInvariant (s : ConnState) : Prop :=
  ∀ i, i < s.created → i ∈ s.disconnectedIds ∨ s.current = some i

theorem handleInvariant_init : handleInvariant initConnState := by
  intro i hi
  exact absurd hi (Nat.not_lt_zero i)

theorem handleInvariant_socketStop {s : ConnState} (h : handleInvariant s) :
    handleInvariant (socketStop s) := by
  cases hc : s.current with
  | none =>
      intro i hi
      have hi2 : i < s.created := by simpa [socketStop, hc] using hi
      rcases h i hi2 with hd | hcur
      · exact Or.inl (by simpa [socketStop, hc] using hd)
      · rw [hc] at hcur
        cases hcur
  | some c =>
      intro i hi
      have hi2 : i < s.created := by simpa [socketStop, hc] using hi
      rcases h i hi2 with hd | hcur
      · exact Or.inl (by simp [socketStop, hc, List.mem_cons]; exact Or.inr hd)
      · have hic : c = i := Option.some.inj (hc.symm.trans hcur)
        exact Or.inl (by simp [socketStop, hc, hic])

theorem stopped_all_disconnected {s : ConnState} (h : handleInvariant s) :
    ∀ i, i < (socketStop s).created → i ∈ (socketStop s).disconnectedIds := by
  intro i hi
  cases hc : s.current with
  | none =>
      have hi2 : i < s.created := by simpa [socketStop, hc] using hi
      rcases h i hi2 with hd | hcur
      · simpa [socketStop, hc] using hd
      · rw [hc] at hcur
        cases hcur
  | some c =>
      have hi2 : i < s.created := by simpa [socketStop, hc] using hi
      rcases h i hi2 with hd | hcur
      · simp only [socketStop, hc, List.mem_cons]
        exact Or.inr hd
      · have hic : c = i := Option.some.inj (hc.symm.trans hcur)
        simp [socketStop, hc, hic]

theorem runCalls_start (rest : List LifecycleCall) (s : ConnState) :
    runCalls (.start :: rest) s
      = runCalls rest
          { created := (socketStop s).created + 1
          , current := some (socketStop s).created
          , disconnectedIds := (socketStop s).disconnectedIds } := rfl

theorem handleInvariant_startState {s : ConnState} (h : handleInvariant s) :
    handleInvariant
      { created := (socketStop s).created + 1
      , current := some (socketStop s).created
      , disconnectedIds := (socketStop s).disconnectedIds } := by
  intro i hi
  rcases Nat.lt_succ_iff_lt_or_eq.mp hi with hlt | heq
  · exact Or.inl (stopped_all_disconnected h i hlt)
  · exact Or.inr (by simp [heq])

theorem handleInvariant_runCalls (calls : List LifecycleCall) (s : ConnState)
    (h : handleInvariant s) : handleInvariant (runCalls calls s) := by
  induction calls generalizing s with
  | nil => exact h
  | cons c rest ih =>
      cases c with
      | stop => exact ih _ (handleInvariant_socketStop h)
      | start =>
          rw [runCalls_start]
          exact ih _ (handleInvariant_startState h)

theorem length_le_one_of_all_eq {l : List Nat} {c : Nat} (hn : l.Nodup)
    (h : ∀ x ∈ l, x = c) : l.length ≤ 1 := by
  match l with
  | [] => simp
  | [a] => simp
  | a :: b :: t =>
      exfalso
      have hac : a = c := h a (by simp)
      have hbc : b = c := h b (by simp)
      have hnb : a ∉ b :: t := (List.nodup_cons.mp hn).1
      apply hnb
      rw [hac, ← hbc]
      exact List.mem_cons_self b t

theorem liveIds_length_le_one {s : ConnState} (h : handleInvariant s) :
    (liveIds s).length ≤ 1 := by
  have hnd : (liveIds s).Nodup := (List.nodup_range s.created).filter _
  cases hc : s.current with
  | none =>
      have hnil : liveIds s = [] := by
        apply List.eq_nil_iff_forall_not_mem.mpr
        intro x hx
        have hmem := List.mem_filter.mp hx
        have hxr : x < s.created := List.mem_range.mp hmem.1
        have hnc : x ∉ s.disconnectedIds := by simpa using hmem.2
        rcases h x hxr with hd | hcur
        · exact hnc hd
        · rw [hc] at hcur
          cases hcur
      simp [hnil]
  | some c =>
      apply length_le_one_of_all_eq hnd
      intro x hx
      have hmem := List.mem_filter.mp hx
      have hxr : x < s.created := List.mem_range.mp hmem.1
      have hnc : x ∉ s.disconnectedIds := by simpa using hmem.2
      rcases h x hxr with hd | hcur
      · exact absurd hd hnc
      · rw [hc] at hcur
        exact (Option.some.inj hcur).symm

theorem getRoomSends_getTimerAndUpdateState (env : ApiEnv) (tid : JsValue) :
    getRoomSends (getTimerAndUpdateState env tid) = [] := by
  cases hg : env .get_timer [("timer_id", tid)] <;>
    simp [getTimerAndUpdateState, hg, getRoomSends]

theorem getRoomSends_cons_log (lv m : String) (rest : List Effect) :
    getRoomSends (.log lv m :: rest) = getRoomSends rest := rfl

theorem getRoomSends_cons_status (st : ConnectionStatus) (rest : List Effect) :
    getRoomSends (.updateStatus st :: rest) = getRoomSends rest := rfl

theorem getRoomSends_fetchRoom (env : ApiEnv) :
    getRoomSends (fetchRoom env) = [[]] := by
  cases hr : env .get_room [] <;> simp [fetchRoom, hr, getRoomSends]

theorem getRoomSends_fetchStatus (env : ApiEnv) :
    getRoomSends (fetchStatus env) = [] := by
  cases h : env .get_status [] with
  | error e => simp [fetchStatus, h, getRoomSends]
  | ok data =>
      by_cases ht : (getField data "timer_id").truthy
      · cases hg : env .get_timer [("timer_id", getField data "timer_id")] <;>
          simp [fetchStatus, h, ht, getTimerAndUpdateState, hg, getRoomSends]
      · simp [fetchStatus, h, ht, getRoomSends]

theorem getRoomSends_onConnect (env : ApiEnv) :
    getRoomSends (onConnect env) = [[]] := by
  rw [onConnect, getRoomSends_cons_log, getRoomSends_cons_status,
    getRoomSends_append, getRoomSends_fetchRoom, getRoomSends_fetchStatus]
  rfl

theorem getRoomSends_handleSignal (env : ApiEnv) (sig : TransportSignal) :
    getRoomSends (handleSignal env sig)
      = if isConnect sig then [([] : Obj)] else [] := by
  cases sig with
  | connect => simp [handleSignal, isConnect, getRoomSends_onConnect]
  | disconnect reason =>
      by_cases h : reason = "io client disconnect" <;>
        simp [handleSignal, isConnect, h, getRoomSends]
  | playback_status payload =>
      cases hg : env .get_timer [("timer_id", getField payload "timer_id")] <;>
        simp [handleSignal, isConnect, onPlaybackStatus, getTimerAndUpdateState,
          hg, getRoomSends]
  | room payload => simp [handleSignal, isConnect, onRoom, getRoomSends]
  | message payload => simp [handleSignal, isConnect, onMessage, getRoomSends]
  | flash payload => simp [handleSignal, isConnect, onFlash, getRoomSends]
  | _ => simp [handleSignal, isConnect, getRoomSends]

theorem getRoomSends_flatten (env : ApiEnv) (signals : List TransportSignal) :
    (getRoomSends ((signals.map (handleSignal env)).flatten)).length
      = (signals.filter isConnect).length := by
  induction signals with
  | nil => rfl
  | cons s rest ih =>
      rw [List.map_cons, List.flatten_cons, getRoomSends_append,
        List.length_append, ih, getRoomSends_handleSignal]
      cases h : isConnect s
      all_goals simp [h, List.filter_cons]
      all_goals omega

theorem fetchRoom_error_eq (env : ApiEnv) (msg : String)
    (h : env .get_room [] = .error msg) :
    fetchRoom env = [.apiSend .get_room [], .log "error" msg] := by
  unfold fetchRoom
  rw [h]

theorem fetchRoom_ok_eq (env : ApiEnv) (data : Obj)
    (h : env .get_room [] = .ok data) :
    fetchRoom env
      = [ .apiSend .get_room []
        , .updateRoomState
            [ ("roomId", getField data "_id")
            , ("roomName", getField data "name")
            , ("roomBlackout", getField data "blackout")
            , ("roomFocus", getField data "focus_message") ] ] := by
  unfold fetchRoom
  rw [h]

theorem fetchStatus_ok_eq (env : ApiEnv) (dataS : Obj)
    (h : env .get_status [] = .ok dataS) :
    fetchStatus env
      = .apiSend .get_status [] ::
        .updatePlaybackState
          [ ("currentTimerId", getField dataS "timer_id")
          , ("isRunning", getField dataS "running")
          , ("kickoff", getField dataS "start")
          , ("deadline", getField dataS "finish")
          , ("lastStop", getField dataS "pause") ] ::
        (if (getField dataS "timer_id").truthy then
          getTimerAndUpdateState env (getField dataS "timer_id")
        else []) := by
  unfold fetchStatus
  rw [h]

theorem getTimerAndUpdateState_error_eq (env : ApiEnv) (tid : JsValue)
    (msg : String) (h : env .get_timer [("timer_id", tid)] = .error msg) :
    getTimerAndUpdateState env tid
      = [.apiSend .get_timer [("timer_id", tid)], .log "error" msg] := by
  unfold getTimerAndUpdateState
  rw [h]

theorem getTimerAndUpdateState_ok_eq (env : ApiEnv) (tid : JsValue)
    (data : Obj) (h : env .get_timer [("timer_id", tid)] = .ok data) :
    getTimerAndUpdateState env tid
      = [ .apiSend .get_timer [("timer_id", tid)]
        , .updateTimerState
            [ ("name", getField data "name")
            , ("speaker", getField data "speaker")
            , ("notes", getField data "notes")
            , ("duration", getField data "duration")
            , ("wrap_up_yellow", getField data "wrap_up_yellow")
            , ("wrap_up_red", getField data "wrap_up_red") ] ] := by
  unfold getTimerAndUpdateState
  rw [h]

theorem getTimerSends_cons_log (lv m : String) (rest : List Effect) :
    getTimerSends (.log lv m :: rest) = getTimerSends rest := rfl

theorem getTimerSends_cons_updateStatus (st : ConnectionStatus)
    (rest : List Effect) :
    getTimerSends (.updateStatus st :: rest) = getTimerSends rest := rfl

theorem getTimerSends_cons_apiStatus (p : Obj) (rest : List Effect) :
    getTimerSends (.apiSend .get_status p :: rest) = getTimerSends rest := rfl

theorem getTimerSends_cons_playback (u : Obj) (rest : List Effect) :
    getTimerSends (.updatePlaybackState u :: rest) = getTimerSends rest := rfl

theorem getTimerSends_fetchRoom (env : ApiEnv) :
    getTimerSends (fetchRoom env) = [] := by
  cases hr : env .get_room [] <;> simp [fetchRoom, hr, getTimerSends]

theorem getTimerSends_getTimerAndUpdateState (env : ApiEnv) (tid : JsValue) :
    getTimerSends (getTimerAndUpdateState env tid) = [[("timer_id", tid)]] := by
  cases hg : env .get_timer [("timer_id", tid)] <;>
    simp [getTimerAndUpdateState, hg, getTimerSends]

theorem roomUpdatesOf_cons_log (lv m : String) (rest : List Effect) :
    roomUpdatesOf (.log lv m :: rest) = roomUpdatesOf rest := rfl

theorem roomUpdatesOf_cons_status (st : ConnectionStatus) (rest : List Effect) :
    roomUpdatesOf (.updateStatus st :: rest) = roomUpdatesOf rest := rfl

theorem roomUpdatesOf_cons_apiSend (k : ApiRequestKind) (p : Obj)
    (rest : List Effect) :
    roomUpdatesOf (.apiSend k p :: rest) = roomUpdatesOf rest := rfl

theorem roomUpdatesOf_cons_playback (u : Obj) (rest : List Effect) :
    roomUpdatesOf (.updatePlaybackState u :: rest) = roomUpdatesOf rest := rfl

theorem roomUpdatesOf_getTimerAndUpdateState (env : ApiEnv) (tid : JsValue) :
    roomUpdatesOf (getTimerAndUpdateState env tid) = [] := by
  cases hg : env .get_timer [("timer_id", tid)] <;>
    simp [getTimerAndUpdateState, hg, roomUpdatesOf]

theorem playbackUpdatesOf_cons_log (lv m : String) (rest : List Effect) :
    playbackUpdatesOf (.log lv m :: rest) = playbackUpdatesOf rest := rfl

theorem playbackUpdatesOf_cons_status (st : ConnectionStatus)
    (rest : List Effect) :
    playbackUpdatesOf (.updateStatus st :: rest) = playbackUpdatesOf rest := rfl

theorem playbackUpdatesOf_cons_apiSend (k : ApiRequestKind) (p : Obj)
    (rest : List Effect) :
    playbackUpdatesOf (.apiSend k p :: rest) = playbackUpdatesOf rest := rfl

theorem playbackUpdatesOf_cons_playback (u : Obj) (rest : List Effect) :
    playbackUpdatesOf (.updatePlaybackState u :: rest)
      = u :: playbackUpdatesOf rest := rfl

theorem playbackUpdatesOf_getTimerAndUpdateState (env : ApiEnv) (tid : JsValue) :
    playbackUpdatesOf (getTimerAndUpdateState env tid) = [] := by
  cases hg : env .get_timer [("timer_id", tid)] <;>
    simp [getTimerAndUpdateState, hg, playbackUpdatesOf]

theorem playbackUpdatesOf_fetchRoom (env : ApiEnv) :
    playbackUpdatesOf (fetchRoom env) = [] := by
  cases hr : env .get_room [] <;> simp [fetchRoom, hr, playbackUpdatesOf]

theorem timerUpdatesOf_cons_log (lv m : String) (rest : List Effect) :
    timerUpdatesOf (.log lv m :: rest) = timerUpdatesOf rest := rfl

theorem timerUpdatesOf_cons_apiSend (k : ApiRequestKind) (p : Obj)
    (rest : List Effect) :
    timerUpdatesOf (.apiSend k p :: rest) = timerUpdatesOf rest := rfl

theorem timerUpdatesOf_cons_playback (u : Obj) (rest : List Effect) :
    timerUpdatesOf (.updatePlaybackState u :: rest) = timerUpdatesOf rest := rfl

/-- C1: for every sequence of transport signals after `socketStart`, the
sequence of statuses forwarded to the status sink is exactly the one the
spec's section 4.1 transition table prescribes; in particular a `connect`
followed by a `disconnect` whose reason is the local intentional-close
reason `io client disconnect` emits exactly `[Connecting, Ok]` — the
disconnect is suppressed. -/
theorem status_sequence_refines_spec_table :
    (∀ (env : ApiEnv) (signals : List TransportSignal),
        statusesOf (socketRun env signals) = specEmittedStatuses signals)
    ∧ (∀ env : ApiEnv,
        statusesOf
          (socketRun env
            [TransportSignal.connect,
             TransportSignal.disconnect "io client disconnect"])
          = [ConnectionStatus.Connecting, ConnectionStatus.Ok]) := by
  have main : ∀ (env : ApiEnv) (signals : List TransportSignal),
      statusesOf (socketRun env signals) = specEmittedStatuses signals := by
    intro env signals
    rw [socketRun, statusesOf_append, statusesOf_flatten]
    rfl
  exact ⟨main, fun env => by rw [main]; rfl⟩

/-- C2: for every sequence of `socketStart`/`socketStop` calls at most one
Transport Handle is live at any time (`socketStart` always tears the
previous one down first); calling start twice in succession leaves exactly
one live handle; and each successful `connect` signal triggers exactly one
Bootstrap Synchronizer run (counted by its leading `get_room` request). -/
theorem at_most_one_live_transport_handle :
    (∀ calls : List LifecycleCall,
        (liveIds (runCalls calls initConnState)).length ≤ 1)
    ∧ (liveIds
        (runCalls [LifecycleCall.start, LifecycleCall.start] initConnState)).length
        = 1
    ∧ (∀ (env : ApiEnv) (signals : List TransportSignal),
        (getRoomSends (socketRun env signals)).length
          = (signals.filter isConnect).length) := by
  refine ⟨?_, by decide, ?_⟩
  · intro calls
    exact liveIds_length_le_one (handleInvariant_runCalls calls _ handleInvariant_init)
  · intro env signals
    rw [socketRun, getRoomSends_append, List.length_append, getRoomSends_flatten]
    simp [socketStartEffects, getRoomSends]

/-- C3: in the Bootstrap Synchronizer, when `get_status` resolves with a
falsy `timer_id` no `get_timer` request is issued, and when it resolves with
`timer_id` "T1" exactly one `get_timer` request is issued, with params
`{timer_id: "T1"}`. -/
theorem bootstrap_timer_fetch_guard (env : ApiEnv) (dataS : Obj)
    (hstat : env .get_status [] = .ok dataS) :
    ((getField dataS "timer_id").truthy = false →
        getTimerSends (onConnect env) = [])
    ∧ (getField dataS "timer_id" = JsValue.str "T1" →
        getTimerSends (onConnect env) = [[("timer_id", JsValue.str "T1")]]) := by
  have hsplit : getTimerSends (onConnect env) = getTimerSends (fetchStatus env) := by
    rw [onConnect, getTimerSends_cons_log, getTimerSends_cons_updateStatus,
      getTimerSends_append, getTimerSends_fetchRoom]
    rfl
  constructor
  · intro hf
    rw [hsplit, fetchStatus_ok_eq env dataS hstat, getTimerSends_cons_apiStatus,
      getTimerSends_cons_playback, hf]
    rfl
  · intro h1
    rw [hsplit, fetchStatus_ok_eq env dataS hstat, getTimerSends_cons_apiStatus,
      getTimerSends_cons_playback, h1]
    show getTimerSends (getTimerAndUpdateState env (JsValue.str "T1")) = _
    rw [getTimerSends_getTimerAndUpdateState]

/-- Witness for C3: both branches at concrete environments. -/
theorem bootstrap_timer_fetch_guard_witness :
    getTimerSends (onConnect envStatusNull) = []
    ∧ getTimerSends (onConnect envStatusT1)
        = [[("timer_id", JsValue.str "T1")]] :=
  ⟨(bootstrap_timer_fetch_guard envStatusNull statusDataNull rfl).1 rfl,
   (bootstrap_timer_fetch_guard envStatusT1 statusDataT1 rfl).2 rfl⟩

/-- C4: a `playback_status` push event with `timer_id` "T2" applies the
playback update and issues exactly one `get_timer` request with params
`{timer_id: "T2"}`; when that request rejects, no timer-state update occurs,
the error is logged, and the handler still completes with exactly these
effects (the rejection is caught, nothing escapes). -/
theorem playback_status_rejected_timer_fetch (env : ApiEnv) (payload : Obj)
    (msg : String)
    (hid : getField payload "timer_id" = JsValue.str "T2")
    (hrej : env .get_timer [("timer_id", JsValue.str "T2")] = .error msg) :
    onPlaybackStatus env payload
      = [ .log "debug" "Event: playback_status"
        , .updatePlaybackState
            [ ("currentTimerId", JsValue.str "T2")
            , ("isRunning", getField payload "running")
            , ("kickoff", getField payload "start")
            , ("deadline", getField payload "finish")
            , ("lastStop", getField payload "pause") ]
        , .apiSend .get_timer [("timer_id", JsValue.str "T2")]
        , .log "error" msg ]
    ∧ timerUpdatesOf (onPlaybackStatus env payload) = []
    ∧ getTimerSends (onPlaybackStatus env payload)
        = [[("timer_id", JsValue.str "T2")]] := by
  have heq : onPlaybackStatus env payload
      = [ .log "debug" "Event: playback_status"
        , .updatePlaybackState
            [ ("currentTimerId", JsValue.str "T2")
            , ("isRunning", getField payload "running")
            , ("kickoff", getField payload "start")
            , ("deadline", getField payload "finish")
            , ("lastStop", getField payload "pause") ]
        , .apiSend .get_timer [("timer_id", JsValue.str "T2")]
        , .log "error" msg ] := by
    rw [onPlaybackStatus, hid, getTimerAndUpdateState_error_eq env _ msg hrej]
  refine ⟨heq, ?_, ?_⟩
  · rw [heq]
    rfl
  · rw [heq]
    rfl

/-- Witness for C4 at a concrete environment and payload. -/
theorem playback_status_rejected_timer_fetch_witness :
    onPlaybackStatus envTimerReject payloadT2
      = [ .log "debug" "Event: playback_status"
        , .updatePlaybackState
            [ ("currentTimerId", JsValue.str "T2")
            , ("isRunning", JsValue.bool true)
            , ("kickoff", JsValue.num 1)
            , ("deadline", JsValue.num 2)
            , ("lastStop", JsValue.null) ]
        , .apiSend .get_timer [("timer_id", JsValue.str "T2")]
        , .log "error" "Error: timer fetch failed" ]
    ∧ timerUpdatesOf (onPlaybackStatus envTimerReject payloadT2) = []
    ∧ getTimerSends (onPlaybackStatus envTimerReject payloadT2)
        = [[("timer_id", JsValue.str "T2")]] :=
  playback_status_rejected_timer_fetch envTimerReject payloadT2
    "Error: timer fetch failed" rfl rfl

/-- C5: a `room` push event leads to exactly one room-state update whose
fields are exactly `roomBlackout` and `roomFocus`; under the State Store's
merge semantics `roomId` and `roomName` read unchanged afterwards. -/
theorem room_event_updates_only_blackout_and_focus :
    (∀ payload : Obj,
        (roomEventUpdate payload).map Prod.fst = ["roomBlackout", "roomFocus"]
        ∧ roomUpdatesOf (onRoom payload) = [roomEventUpdate payload])
    ∧ (∀ payload store : Obj,
        mergeLookup store (roomEventUpdate payload) "roomId"
          = getField store "roomId"
        ∧ mergeLookup store (roomEventUpdate payload) "roomName"
          = getField store "roomName") :=
  ⟨fun _ => ⟨rfl, rfl⟩, fun _ _ => ⟨rfl, rfl⟩⟩

/-- C6: when `get_room` rejects and `get_status` resolves, the bootstrap run
performs no room-state update, logs the `get_room` error, and performs
exactly one playback-state update. -/
theorem bootstrap_fetches_independent (env : ApiEnv) (msg : String)
    (dataS : Obj)
    (hroom : env .get_room [] = .error msg)
    (hstat : env .get_status [] = .ok dataS) :
    roomUpdatesOf (onConnect env) = []
    ∧ Effect.log "error" msg ∈ onConnect env
    ∧ (playbackUpdatesOf (onConnect env)).length = 1 := by
  have hfr := fetchRoom_error_eq env msg hroom
  have hfs := fetchStatus_ok_eq env dataS hstat
  refine ⟨?_, ?_, ?_⟩
  · rw [onConnect, roomUpdatesOf_cons_log, roomUpdatesOf_cons_status,
      roomUpdatesOf_append, hfr, hfs, roomUpdatesOf_cons_apiSend,
      roomUpdatesOf_cons_log, roomUpdatesOf_cons_apiSend,
      roomUpdatesOf_cons_playback]
    show [] ++ roomUpdatesOf _ = []
    rw [List.nil_append]
    by_cases ht : (getField dataS "timer_id").truthy
    · rw [if_pos ht, roomUpdatesOf_getTimerAndUpdateState]
    · rw [if_neg ht]
      rfl
  · rw [onConnect, hfr]
    simp
  · rw [onConnect, playbackUpdatesOf_cons_log, playbackUpdatesOf_cons_status,
      playbackUpdatesOf_append, hfr, hfs, playbackUpdatesOf_cons_apiSend,
      playbackUpdatesOf_cons_log, playbackUpdatesOf_cons_apiSend,
      playbackUpdatesOf_cons_playback]
    show ([] ++ (_ :: playbackUpdatesOf _)).length = 1
    rw [List.nil_append]
    by_cases ht : (getField dataS "timer_id").truthy
    · rw [if_pos ht, playbackUpdatesOf_getTimerAndUpdateState]
      rfl
    · rw [if_neg ht]
      rfl

/-- Witness for C6 at a concrete environment. -/
theorem bootstrap_fetches_independent_witness :
    roomUpdatesOf (onConnect envRoomReject) = []
    ∧ Effect.log "error" "Error: room fetch failed" ∈ onConnect envRoomReject
    ∧ (playbackUpdatesOf (onConnect envRoomReject)).length = 1 :=
  bootstrap_fetches_independent envRoomReject "Error: room fetch failed"
    statusDataNull rfl rfl

/-- C7: the options of the Transport Handle that `socketStart` constructs
bound reconnection at 5 attempts with a backoff delay capped at 10000 ms,
and the reconnect-exhausted signal produces only an error log and a terminal
`ConnectionFailure` status — in particular no `socket.connect()` call and no
request, so the core initiates no further retry. -/
theorem bounded_reconnection_and_terminal_failure :
    (∀ config : ConnectionConfig,
        (ioOptions config).reconnectionAttempts = 5
        ∧ (ioOptions config).reconnectionDelayMax = 10000)
    ∧ (∀ env : ApiEnv,
        handleSignal env .reconnect_failed
          = [ .log "error" "Unable to connect to Stagetimer.io!"
            , .updateStatus .ConnectionFailure ]
        ∧ Effect.socketConnect ∉ handleSignal env .reconnect_failed) :=
  ⟨fun _ => ⟨rfl, rfl⟩, fun _ => ⟨rfl, by simp [handleSignal]⟩⟩

/-- C8, counterexample: with `get_timer` resolving (environment
`envStatusT1`, response `timerDataSample`), the timer-state update actually
applied carries the wire field names `wrap_up_yellow`/`wrap_up_red` —
not the `wrapUpYellowAt`/`wrapUpRedAt` the claim names, which are absent. -/
theorem timer_snapshot_field_names_counterexample :
    (timerUpdatesOf (getTimerAndUpdateState envStatusT1 (JsValue.str "T1"))).map
        (List.map Prod.fst)
      = [["name", "speaker", "notes", "duration", "wrap_up_yellow",
          "wrap_up_red"]]
    ∧ (timerUpdatesOf (getTimerAndUpdateState envStatusT1 (JsValue.str "T1"))).map
        (fun u => u.lookup "wrapUpYellowAt")
      = [none]
    ∧ (timerUpdatesOf (getTimerAndUpdateState envStatusT1 (JsValue.str "T1"))).map
        (fun u => u.lookup "wrapUpRedAt")
      = [none] :=
  ⟨rfl, rfl, rfl⟩

/-- C8, amended: a successfully resolved `get_timer` request — this function
is the one shared by the bootstrap chain and the `playback_status` handler —
is mapped to a timer snapshot with fields `name`, `speaker`, `notes`,
`duration`, `wrap_up_yellow` and `wrap_up_red`, and that snapshot is applied
via a timer-state update. -/
theorem timer_snapshot_applied_on_resolution (env : ApiEnv) (tid : JsValue)
    (data : Obj) (h : env .get_timer [("timer_id", tid)] = .ok data) :
    getTimerAndUpdateState env tid
      = [ .apiSend .get_timer [("timer_id", tid)]
        , .updateTimerState
            [ ("name", getField data "name")
            , ("speaker", getField data "speaker")
            , ("notes", getField data "notes")
            , ("duration", getField data "duration")
            , ("wrap_up_yellow", getField data "wrap_up_yellow")
            , ("wrap_up_red", getField data "wrap_up_red") ] ]
    ∧ timerUpdatesOf (getTimerAndUpdateState env tid)
        = [[ ("name", getField data "name")
           , ("speaker", getField data "speaker")
           , ("notes", getField data "notes")
           , ("duration", getField data "duration")
           , ("wrap_up_yellow", getField data "wrap_up_yellow")
           , ("wrap_up_red", getField data "wrap_up_red") ]] := by
  have heq := getTimerAndUpdateState_ok_eq env tid data h
  exact ⟨heq, by rw [heq]; rfl⟩

/-- Witness for the amended C8 at a concrete environment. -/
theorem timer_snapshot_applied_on_resolution_witness :
    getTimerAndUpdateState envStatusT1 (JsValue.str "T1")
      = [ .apiSend .get_timer [("timer_id", JsValue.str "T1")]
        , .updateTimerState
            [ ("name", JsValue.str "Keynote")
            , ("speaker", JsValue.str "Ada")
            , ("notes", JsValue.str "n")
            , ("duration", JsValue.num 600)
            , ("wrap_up_yellow", JsValue.num 120)
            , ("wrap_up_red", JsValue.num 60) ] ]
    ∧ timerUpdatesOf (getTimerAndUpdateState envStatusT1 (JsValue.str "T1"))
        = [[ ("name", JsValue.str "Keynote")
           , ("speaker", JsValue.str "Ada")
           , ("notes", JsValue.str "n")
           , ("duration", JsValue.num 600)
           , ("wrap_up_yellow", JsValue.num 120)
           , ("wrap_up_red", JsValue.num 60) ]] :=
  timer_snapshot_applied_on_resolution envStatusT1 (JsValue.str "T1")
    timerDataSample rfl

/-- C9: calling `socketStart` with an absent instance, or with an instance
whose config is absent, fails synchronously with the thrown precondition
error, for every prior module state — the failure is the call's own result,
not an asynchronous or swallowed one. -/
theorem start_requires_instance_and_config (s : ConnState) :
    socketStart none s = .error "Module instance required"
    ∧ socketStart (some { config := none }) s
        = .error "Module instance required" :=
  ⟨rfl, rfl⟩

/-- C10: the `playback_status` handler has no null guard: for every payload,
falsy `timer_id` included, it issues exactly one `get_timer` request whose
params carry that `timer_id` verbatim; in particular a null `timer_id`
yields params `{timer_id: null}`. -/
theorem playback_status_has_no_null_guard :
    (∀ (env : ApiEnv) (payload : Obj),
        getTimerSends (onPlaybackStatus env payload)
          = [[("timer_id", getField payload "timer_id")]])
    ∧ (∀ env : ApiEnv,
        getTimerSends (onPlaybackStatus env payloadNullTimer)
          = [[("timer_id", JsValue.null)]]) := by
  have main : ∀ (env : ApiEnv) (payload : Obj),
      getTimerSends (onPlaybackStatus env payload)
        = [[("timer_id", getField payload "timer_id")]] := by
    intro env payload
    rw [onPlaybackStatus, getTimerSends_cons_log, getTimerSends_cons_playback,
      getTimerSends_getTimerAndUpdateState]
  exact ⟨main, fun env => main env payloadNullTimer⟩

end Stagetimer
